import Mathlib

/-
Formal model of the ProjectPRT case/document workflow backend.

The definitions below are a shallow embedding of the core workflow logic:
the data model of app/models.py (plus the deposit_account_id and
is_receipt_uploaded case columns and the jv_line_items table that migration
47e0884dfe99 adds at the database level), the sequence allocator of
app/services/doc_numbers.py (the same logic as _generate_document_no in
app/routers/cases.py), the case workflow endpoints of app/routers/cases.py,
and the journal-voucher aggregation endpoint of app/routers/documents.py.

The database is modelled as explicit lists of rows; every endpoint becomes a
pure function from the database state (plus its request arguments, the
acting user and the current UTC year-month) to either an error or the new
state.  An error result models an aborted transaction: nothing is persisted.
Randomly generated values (fresh UUIDs, the case number) and the current
time are passed in as explicit arguments.  Amounts are integers (the code
stores NUMERIC(18,2) and never divides), UUIDs are natural numbers.
-/

namespace PRT

/-- CategoryType of app/models.py: EXPENSE, REVENUE, ASSET. -/
inductive CategoryType where
  | EXPENSE
  | REVENUE
  | ASSET
  deriving DecidableEq, Repr

/-- FundingType of app/models.py. -/
inductive FundingType where
  | OPERATING
  | GOV_BUDGET
  deriving DecidableEq, Repr

/-- CaseStatus of app/models.py (the implemented PS/CR/DB workflow chain). -/
inductive CaseStatus where
  | DRAFT
  | SUBMITTED
  | PS_APPROVED
  | PS_REJECTED
  | CR_ISSUED
  | PAID
  | SETTLEMENT_SUBMITTED
  | DB_ISSUED
  | CLOSED
  | CANCELLED
  deriving DecidableEq, Repr

/-- DocumentType of app/models.py: PS, CR and DB only.  Migration
47e0884dfe99 renamed the database enum values to PV/RV/JV, but the Python
enum was never updated, so references such as DocumentType.JV in
app/routers/documents.py raise AttributeError. -/
inductive DocumentType where
  | PS
  | CR
  | DB
  deriving DecidableEq, Repr

/-- PaymentType of app/models.py. -/
inductive PaymentType where
  | DISBURSE
  | REFUND
  | ADDITIONAL
  deriving DecidableEq, Repr

/-- Role enum of app/deps.py. -/
inductive Role where
  | REQUESTER
  | FINANCE
  | ACCOUNTING
  | TREASURY
  | ADMIN
  | EXECUTIVE
  deriving DecidableEq, Repr

/-- The string value of a DocumentType, as used for composed document
numbers (DocumentType.value in Python). -/
def docTypeValue : DocumentType → String
  | .PS => "PS"
  | .CR => "CR"
  | .DB => "DB"

/-- The string value of a CaseStatus (CaseStatus.value in Python). -/
def statusValue : CaseStatus → String
  | .DRAFT => "DRAFT"
  | .SUBMITTED => "SUBMITTED"
  | .PS_APPROVED => "PS_APPROVED"
  | .PS_REJECTED => "PS_REJECTED"
  | .CR_ISSUED => "CR_ISSUED"
  | .PAID => "PAID"
  | .SETTLEMENT_SUBMITTED => "SETTLEMENT_SUBMITTED"
  | .DB_ISSUED => "DB_ISSUED"
  | .CLOSED => "CLOSED"
  | .CANCELLED => "CANCELLED"

/-- A JSON scalar stored in an audit log details_json payload. -/
inductive JVal where
  | str (s : String)
  | num (n : Int)
  deriving DecidableEq, Repr

/-- categories table row (app/models.py Category). -/
structure Category where
  id : Nat
  name_th : String
  ctype : CategoryType
  account_code : String
  is_active : Bool
  deriving DecidableEq, Repr

/-- cases table row (app/models.py Case, plus the deposit_account_id and
is_receipt_uploaded columns added by migration 47e0884dfe99). -/
structure Case where
  id : Nat
  case_no : String
  category_id : Nat
  account_code : String
  requester_id : String
  department_id : Option String
  cost_center_id : Option String
  funding_type : FundingType
  requested_amount : Int
  purpose : String
  status : CaseStatus
  deposit_account_id : Option Nat
  is_receipt_uploaded : Bool
  deriving DecidableEq, Repr

/-- documents table row (app/models.py Document). -/
structure Document where
  id : Nat
  case_id : Nat
  doc_type : DocumentType
  doc_no : String
  amount : Int
  pdf_uri : String
  created_by : String
  deriving DecidableEq, Repr

/-- jv_line_items table row: the table exists in the database (created by
migration 47e0884dfe99), but app/models.py defines no JVLineItem ORM class
— documents.py's import of JVLineItem from app.models fails — so no code
path can ever write a row. -/
structure JVLineItem where
  jv_document_id : Nat
  ref_case_id : Nat
  amount : Int
  deriving DecidableEq, Repr

/-- payments table row (app/models.py Payment); timestamps are omitted. -/
structure Payment where
  case_id : Nat
  ptype : PaymentType
  amount : Int
  paid_by : String
  reference_no : Option String
  deriving DecidableEq, Repr

/-- audit_logs table row (app/models.py AuditLog); performed_at is encoded
by list order (the log list is append-only and chronological). -/
structure AuditEntry where
  entity_type : String
  entity_id : Nat
  action : String
  performed_by : String
  details : List (String × JVal)
  deriving DecidableEq, Repr

/-- doc_counters table row (app/models.py DocCounter). -/
structure Counter where
  pfx : DocumentType
  year_month : String
  last_number : Nat
  deriving DecidableEq, Repr

/-- The authenticated user produced by app/deps.py get_current_user. -/
structure Actor where
  username : String
  roles : List Role
  deriving DecidableEq, Repr

/-- The persistent database state. -/
structure DBState where
  categories : List Category
  cases : List Case
  documents : List Document
  jv_line_items : List JVLineItem
  payments : List Payment
  counters : List Counter
  audit_logs : List AuditEntry
  deriving DecidableEq, Repr

/-- The error taxonomy raised by the routers (HTTPException status codes:
404, 403, 409, 400; internal models an unhandled exception, i.e. HTTP 500
with the whole transaction rolled back). -/
inductive ApiError where
  | notFound (msg : String)
  | forbidden (msg : String)
  | conflict (msg : String)
  | badRequest (msg : String)
  | internal (msg : String)
  deriving DecidableEq, Repr

/-- has_role of app/deps.py: the user must hold any of the required roles. -/
def hasAnyRole (a : Actor) (rs : List Role) : Bool :=
  rs.any (fun r => a.roles.contains r)

/-- Zero-pad a number to at least four digits, mirroring the Python format
spec 04d: numbers beyond 9999 keep their full width. -/
def pad4 (n : Nat) : String :=
  String.mk (List.replicate (4 - (Nat.repr n).length) '0') ++ Nat.repr n

/-- Compose a document number string, PREFIX-YYMM-NNNN. -/
def mkDocNo (p : DocumentType) (ym : String) (n : Nat) : String :=
  docTypeValue p ++ "-" ++ ym ++ "-" ++ pad4 n

/-- Replace the first counter row matching the given prefix and period with
one holding the new last_number (the ORM mutates the single row fetched by
primary-key-unique (doc_prefix, year_month)). -/
def setCounter : List Counter → DocumentType → String → Nat → List Counter
  | [], _, _, _ => []
  | c :: rest, p, ym, v =>
      if c.pfx == p && c.year_month == ym then
        { c with last_number := v } :: rest
      else
        c :: setCounter rest p ym v

/-- generate_document_no of app/services/doc_numbers.py (the identical
logic appears as _generate_document_no in app/routers/cases.py): fetch the
counter row for (prefix, current year-month) under a row lock; if absent,
create it with last_number 0; increment; return the composed number string
and the updated counter table. -/
def generate_document_no (cs : List Counter) (p : DocumentType) (ym : String) :
    String × List Counter :=
  match cs.find? (fun c => c.pfx == p && c.year_month == ym) with
  | some ctr =>
      (mkDocNo p ym (ctr.last_number + 1), setCounter cs p ym (ctr.last_number + 1))
  | none =>
      -- created with last_number = 0, then incremented to 1
      (mkDocNo p ym 1, cs ++ [{ pfx := p, year_month := ym, last_number := 1 }])

/-- The last_number currently stored for a (prefix, period) pair, zero when
the row does not exist yet. -/
def counterVal (cs : List Counter) (p : DocumentType) (ym : String) : Nat :=
  ((cs.find? (fun c => c.pfx == p && c.year_month == ym)).map
    (fun c => c.last_number)).getD 0

/-- A run of consecutive allocations against the same prefix and period,
returning the list of composed numbers in order. -/
def allocRun (cs : List Counter) (p : DocumentType) (ym : String) :
    Nat → List String × List Counter
  | 0 => ([], cs)
  | Nat.succ n =>
      let r := generate_document_no cs p ym
      let rest := allocRun r.2 p ym n
      (r.1 :: rest.1, rest.2)

theorem counterVal_setCounter (cs : List Counter) (p : DocumentType)
    (ym : String) (v : Nat) (c0 : Counter)
    (h : cs.find? (fun c => c.pfx == p && c.year_month == ym) = some c0) :
    counterVal (setCounter cs p ym v) p ym = v := by
  induction cs with
  | nil => simp at h
  | cons a l ih =>
      rcases hp : (a.pfx == p && a.year_month == ym) with _ | _
      · have hfind : l.find? (fun c => c.pfx == p && c.year_month == ym) = some c0 := by
          rw [List.find?_cons_of_neg _ (by simp [hp])] at h
          exact h
        simp only [setCounter, hp, Bool.false_eq_true, if_false]
        have := ih hfind
        rw [counterVal, List.find?_cons_of_neg _ (by simp [hp])]
        exact this
      · simp only [setCounter, hp, if_true]
        rw [counterVal, List.find?_cons_of_pos _ (by simp_all)]
        rfl

theorem generate_document_no_spec (cs : List Counter) (p : DocumentType)
    (ym : String) :
    (generate_document_no cs p ym).1 = mkDocNo p ym (counterVal cs p ym + 1) ∧
    counterVal (generate_document_no cs p ym).2 p ym = counterVal cs p ym + 1 := by
  rcases h : cs.find? (fun c => c.pfx == p && c.year_month == ym) with _ | ctr
  · constructor
    · simp [generate_document_no, h, counterVal]
    · simp only [generate_document_no, h]
      rw [counterVal, List.find?_append, h, Option.none_or,
        List.find?_cons_of_pos _ (by simp)]
      simp [counterVal, h]
  · constructor
    · simp [generate_document_no, h, counterVal]
    · simp only [generate_document_no, h]
      have := counterVal_setCounter cs p ym (ctr.last_number + 1) ctr h
      simpa [counterVal, h] using this

theorem allocRun_strings (cs : List Counter) (p : DocumentType) (ym : String) :
    ∀ N : Nat,
      (allocRun cs p ym N).1 =
        (List.range N).map (fun k => mkDocNo p ym (counterVal cs p ym + k + 1)) ∧
      counterVal (allocRun cs p ym N).2 p ym = counterVal cs p ym + N := by
  intro N
  induction N generalizing cs with
  | zero => simp [allocRun]
  | succ n ih =>
      obtain ⟨h1, h2⟩ := generate_document_no_spec cs p ym
      obtain ⟨ih1, ih2⟩ := ih (generate_document_no cs p ym).2
      constructor
      · show (generate_document_no cs p ym).1 ::
            (allocRun (generate_document_no cs p ym).2 p ym n).1 = _
        rw [h1, ih1, h2, List.range_succ_eq_map, List.map_cons, List.map_map]
        simp only [Nat.add_zero, List.cons.injEq]
        refine ⟨trivial, ?_⟩
        apply List.map_congr_left
        intro k _
        simp only [Function.comp_apply]
        congr 1
        omega
      · show counterVal (allocRun (generate_document_no cs p ym).2 p ym n).2 p ym = _
        rw [ih2, h2]
        omega

theorem length_pad4 (n : Nat) : (pad4 n).length = max 4 (Nat.repr n).length := by
  have hlen : (pad4 n).length = (4 - (Nat.repr n).length) + (Nat.repr n).length := by
    show (List.replicate (4 - (Nat.repr n).length) '0' ++ (Nat.repr n).data).length = _
    rw [List.length_append, List.length_replicate]
    rfl
  rw [hlen]
  omega

/-- Claim C2: for every sequence of N allocations with the same document-type
prefix in the same year-month, the allocator lazily starts from last_number 0
when the counter row is absent (counterVal returns 0 then), increments by
exactly 1 per allocation, and the k-th returned string is
PREFIX-YYMM-(pad4 (initial + k + 1)): the underlying integers form the
contiguous, duplicate-free run initial+1, ..., initial+N, and the padding is
left-zero-padding to width 4 that grows wider (is never truncated or
wrapped) beyond four digits. -/
theorem C2_allocator_contiguous (cs : List Counter) (p : DocumentType)
    (ym : String) (N : Nat) :
    (allocRun cs p ym N).1 =
      (List.range N).map (fun k => mkDocNo p ym (counterVal cs p ym + k + 1)) ∧
    counterVal (allocRun cs p ym N).2 p ym = counterVal cs p ym + N ∧
    ((List.range N).map (fun k => counterVal cs p ym + k + 1)).Nodup ∧
    ∀ n : Nat, (pad4 n).length = max 4 (Nat.repr n).length := by
  obtain ⟨h1, h2⟩ := allocRun_strings cs p ym N
  refine ⟨h1, h2, List.Nodup.map ?_ (List.nodup_range N), length_pad4⟩
  intro a b hab
  dsimp only [] at hab
  omega

/-!  The workflow endpoints of app/routers/cases.py.  -/

/-- Update the status of the case fetched by primary key: the ORM mutates
the single row found for the id (primary keys are unique, so the first
match is the row). -/
def updateCaseStatus : List Case → Nat → CaseStatus → List Case
  | [], _, _ => []
  | c :: rest, cid, st =>
      if c.id == cid then { c with status := st } :: rest
      else c :: updateCaseStatus rest cid st

/-- create_case of app/routers/cases.py: validate the category exists and is
active, denormalize its account code, and persist a DRAFT case.  The
generated case number and fresh id are passed in; note that the handler
ignores payload.deposit_account_id entirely (the Case constructor is not
given it) and performs no deposit-account validation. -/
structure CaseCreate where
  category_id : Nat
  requested_amount : Int
  purpose : String
  department_id : Option String
  cost_center_id : Option String
  funding_type : FundingType
  deposit_account_id : Option Nat
  deriving DecidableEq, Repr

def create_case (db : DBState) (payload : CaseCreate) (username : String)
    (newId : Nat) (caseNo : String) : Except ApiError (DBState × Case) :=
  match db.categories.find? (fun c => c.id == payload.category_id) with
  | none => .error (.notFound "Category not found.")
  | some category =>
      if ¬ category.is_active then .error (.badRequest "Category is inactive.")
      else
        let dbCase : Case :=
          { id := newId,
            case_no := caseNo,
            category_id := payload.category_id,
            account_code := category.account_code,
            requester_id := username,
            department_id := payload.department_id,
            cost_center_id := payload.cost_center_id,
            funding_type := payload.funding_type,
            requested_amount := payload.requested_amount,
            purpose := payload.purpose,
            status := .DRAFT,
            deposit_account_id := none,
            is_receipt_uploaded := false }
        let audit : AuditEntry :=
          { entity_type := "case", entity_id := newId, action := "create",
            performed_by := username,
            -- details_json is the payload dump; no read path consumes it
            details := [] }
        .ok ({ db with
               cases := db.cases ++ [dbCase],
               audit_logs := db.audit_logs ++ [audit] }, dbCase)

/-- submit_case of app/routers/cases.py: requester-only, owner-only,
DRAFT to SUBMITTED. -/
def submit_case (db : DBState) (caseId : Nat) (actor : Actor) :
    Except ApiError (DBState × Case) :=
  if ¬ hasAnyRole actor [.REQUESTER] then
    .error (.forbidden "Insufficient permissions")
  else
    match db.cases.find? (fun c => c.id == caseId) with
    | none => .error (.notFound "Case not found.")
    | some dbCase =>
        if dbCase.requester_id ≠ actor.username then
          .error (.forbidden "Not authorized to submit this case.")
        else if dbCase.status ≠ .DRAFT then
          .error (.conflict "Only DRAFT cases can be submitted.")
        else
          let audit : AuditEntry :=
            { entity_type := "case", entity_id := dbCase.id, action := "submit",
              performed_by := actor.username,
              details := [("old_status", .str (statusValue dbCase.status)),
                          ("new_status", .str "SUBMITTED")] }
          .ok ({ db with
                 cases := updateCaseStatus db.cases caseId .SUBMITTED,
                 audit_logs := db.audit_logs ++ [audit] },
               { dbCase with status := .SUBMITTED })

/-- ps_approve_case of app/routers/cases.py: finance or admin, SUBMITTED
only, refuses when a PS document already exists, otherwise allocates a PS
number, creates the PS document with amount = requested_amount, and sets the
status to PS_APPROVED.  The category of the case is never consulted. -/
def ps_approve_case (db : DBState) (caseId : Nat) (actor : Actor)
    (ym : String) (newDocId : Nat) : Except ApiError (DBState × Document) :=
  if ¬ hasAnyRole actor [.FINANCE, .ADMIN] then
    .error (.forbidden "Insufficient permissions")
  else
    match db.cases.find? (fun c => c.id == caseId) with
    | none => .error (.notFound "Case not found.")
    | some dbCase =>
        if dbCase.status ≠ .SUBMITTED then
          .error (.conflict "Case status must be SUBMITTED to approve PS.")
        else if (db.documents.find?
            (fun d => d.case_id == caseId && d.doc_type == DocumentType.PS)).isSome then
          .error (.conflict "PS document already exists for case.")
        else
          let r := generate_document_no db.counters .PS ym
          let doc : Document :=
            { id := newDocId, case_id := caseId, doc_type := .PS, doc_no := r.1,
              amount := dbCase.requested_amount, pdf_uri := "placeholder_ps_uri",
              created_by := actor.username }
          let audit : AuditEntry :=
            { entity_type := "case", entity_id := dbCase.id, action := "ps_approve",
              performed_by := actor.username,
              details := [("old_status", .str (statusValue dbCase.status)),
                          ("new_status", .str "PS_APPROVED"),
                          ("ps_doc_no", .str r.1)] }
          .ok ({ db with
                 counters := r.2,
                 documents := db.documents ++ [doc],
                 cases := updateCaseStatus db.cases caseId .PS_APPROVED,
                 audit_logs := db.audit_logs ++ [audit] }, doc)

/-- cr_issue_case of app/routers/cases.py: accounting or admin, PS_APPROVED
only, refuses when a CR document already exists, otherwise creates the CR
document with amount = requested_amount and sets the status to CR_ISSUED. -/
def cr_issue_case (db : DBState) (caseId : Nat) (actor : Actor)
    (ym : String) (newDocId : Nat) : Except ApiError (DBState × Document) :=
  if ¬ hasAnyRole actor [.ACCOUNTING, .ADMIN] then
    .error (.forbidden "Insufficient permissions")
  else
    match db.cases.find? (fun c => c.id == caseId) with
    | none => .error (.notFound "Case not found.")
    | some dbCase =>
        if dbCase.status ≠ .PS_APPROVED then
          .error (.conflict "Case status must be PS_APPROVED to issue CR.")
        else if (db.documents.find?
            (fun d => d.case_id == caseId && d.doc_type == DocumentType.CR)).isSome then
          .error (.conflict "CR document already exists for case.")
        else
          let r := generate_document_no db.counters .CR ym
          let doc : Document :=
            { id := newDocId, case_id := caseId, doc_type := .CR, doc_no := r.1,
              amount := dbCase.requested_amount, pdf_uri := "placeholder_cr_uri",
              created_by := actor.username }
          let audit : AuditEntry :=
            { entity_type := "case", entity_id := dbCase.id, action := "cr_issue",
              performed_by := actor.username,
              details := [("old_status", .str (statusValue dbCase.status)),
                          ("new_status", .str "CR_ISSUED"),
                          ("cr_doc_no", .str r.1)] }
          .ok ({ db with
                 counters := r.2,
                 documents := db.documents ++ [doc],
                 cases := updateCaseStatus db.cases caseId .CR_ISSUED,
                 audit_logs := db.audit_logs ++ [audit] }, doc)

/-- record_payment_for_case of app/routers/cases.py: treasury or admin,
CR_ISSUED only; requires the CR document (404 otherwise); refuses a second
DISBURSE payment; records the payment with amount = the CR document amount
(the request body carries only an optional reference number) and sets the
status to PAID. -/
def record_payment_for_case (db : DBState) (caseId : Nat)
    (reference_no : Option String) (actor : Actor) :
    Except ApiError (DBState × Payment) :=
  if ¬ hasAnyRole actor [.TREASURY, .ADMIN] then
    .error (.forbidden "Insufficient permissions")
  else
    match db.cases.find? (fun c => c.id == caseId) with
    | none => .error (.notFound "Case not found.")
    | some dbCase =>
        if dbCase.status ≠ .CR_ISSUED then
          .error (.conflict "Case status must be CR_ISSUED to record payment.")
        else
          match db.documents.find?
              (fun d => d.case_id == caseId && d.doc_type == DocumentType.CR) with
          | none => .error (.notFound "CR document not found for case.")
          | some crDocument =>
              if (db.payments.find?
                  (fun q => q.case_id == caseId && q.ptype == PaymentType.DISBURSE)).isSome then
                .error (.conflict "Payment already recorded for case.")
              else
                let pay : Payment :=
                  { case_id := caseId, ptype := .DISBURSE,
                    amount := crDocument.amount, paid_by := actor.username,
                    reference_no := reference_no }
                let audit : AuditEntry :=
                  { entity_type := "case", entity_id := dbCase.id,
                    action := "payment_disburse", performed_by := actor.username,
                    details := [("old_status", .str (statusValue dbCase.status)),
                                ("new_status", .str "PAID"),
                                ("payment_amount", .num pay.amount)] }
                .ok ({ db with
                       payments := db.payments ++ [pay],
                       cases := updateCaseStatus db.cases caseId .PAID,
                       audit_logs := db.audit_logs ++ [audit] }, pay)

/-- submit_settlement_for_case of app/routers/cases.py: requester role, PAID
only (the status conflict is checked before ownership), owner only; moves to
SETTLEMENT_SUBMITTED and records actual_amount only in the audit log. -/
def submit_settlement_for_case (db : DBState) (caseId : Nat)
    (actual_amount : Int) (actor : Actor) : Except ApiError (DBState × Case) :=
  if ¬ hasAnyRole actor [.REQUESTER] then
    .error (.forbidden "Insufficient permissions")
  else
    match db.cases.find? (fun c => c.id == caseId) with
    | none => .error (.notFound "Case not found.")
    | some dbCase =>
        if dbCase.status ≠ .PAID then
          .error (.conflict "Case status must be PAID to submit settlement.")
        else if dbCase.requester_id ≠ actor.username then
          .error (.forbidden "Not authorized to submit settlement for this case.")
        else
          let audit : AuditEntry :=
            { entity_type := "case", entity_id := dbCase.id,
              action := "settlement_submit", performed_by := actor.username,
              details := [("old_status", .str (statusValue dbCase.status)),
                          ("new_status", .str "SETTLEMENT_SUBMITTED"),
                          ("actual_amount", .num actual_amount)] }
          .ok ({ db with
                 cases := updateCaseStatus db.cases caseId .SETTLEMENT_SUBMITTED,
                 audit_logs := db.audit_logs ++ [audit] },
               { dbCase with status := .SETTLEMENT_SUBMITTED })

/-- The audit-log rows matching the settlement_submit recovery query of
db_issue_case (entity_type case, the given entity id, action
settlement_submit). -/
def settlementLogs (logs : List AuditEntry) (caseId : Nat) : List AuditEntry :=
  logs.filter (fun a =>
    a.entity_type == "case" && a.entity_id == caseId && a.action == "settlement_submit")

/-- db_issue_case of app/routers/cases.py: accounting or admin,
SETTLEMENT_SUBMITTED only, refuses when a DB document already exists;
recovers actual_amount from the settlement_submit audit-log row (the query
orders by performed_at descending and calls scalar_one_or_none, which
raises MultipleResultsFound when more than one row matches); 404 when the
row or its actual_amount key is absent; requires the CR document (404
otherwise); creates the DB document with amount = actual_amount and sets the
status to DB_ISSUED and then immediately to CLOSED. -/
def db_issue_case (db : DBState) (caseId : Nat) (actor : Actor)
    (ym : String) (newDocId : Nat) : Except ApiError (DBState × Document) :=
  if ¬ hasAnyRole actor [.ACCOUNTING, .ADMIN] then
    .error (.forbidden "Insufficient permissions")
  else
    match db.cases.find? (fun c => c.id == caseId) with
    | none => .error (.notFound "Case not found.")
    | some dbCase =>
        if dbCase.status ≠ .SETTLEMENT_SUBMITTED then
          .error (.conflict "Case status must be SETTLEMENT_SUBMITTED to issue DB.")
        else if (db.documents.find?
            (fun d => d.case_id == caseId && d.doc_type == DocumentType.DB)).isSome then
          .error (.conflict "DB document already exists for case.")
        else
          match settlementLogs db.audit_logs caseId with
          | _ :: _ :: _ => .error (.internal "MultipleResultsFound")
          | [] => .error (.notFound "Settlement actual_amount not found in audit logs.")
          | [entry] =>
              match entry.details.lookup "actual_amount" with
              | none =>
                  .error (.notFound "Settlement actual_amount not found in audit logs.")
              | some (.str _) => .error (.internal "decimal.InvalidOperation")
              | some (.num actual_amount) =>
                  match db.documents.find?
                      (fun d => d.case_id == caseId && d.doc_type == DocumentType.CR) with
                  | none => .error (.notFound "CR document not found for case.")
                  | some crDocument =>
                      let r := generate_document_no db.counters .DB ym
                      let doc : Document :=
                        { id := newDocId, case_id := caseId, doc_type := .DB,
                          doc_no := r.1, amount := actual_amount,
                          pdf_uri := "placeholder_db_uri",
                          created_by := actor.username }
                      let audit : AuditEntry :=
                        { entity_type := "case", entity_id := dbCase.id,
                          action := "db_issue", performed_by := actor.username,
                          details := [("old_status", .str (statusValue dbCase.status)),
                                      ("new_status", .str "CLOSED"),
                                      ("db_doc_no", .str r.1),
                                      ("actual_amount", .num actual_amount),
                                      ("cr_amount", .num crDocument.amount),
                                      ("variance", .num (actual_amount - crDocument.amount))] }
                      .ok ({ db with
                             counters := r.2,
                             documents := db.documents ++ [doc],
                             cases := updateCaseStatus db.cases caseId .CLOSED,
                             audit_logs := db.audit_logs ++ [audit] }, doc)

/-!  create_jv of app/routers/documents.py.  -/

/-- Step 2 of create_jv: the running total starts from the main case's
requested_amount and adds the requested_amount of every linked case that
resolves; a linked id that does not resolve is silently skipped. -/
def reqTotal (cases : List Case) (linked_case_ids : List Nat) (start : Int) : Int :=
  linked_case_ids.foldl (fun acc lid =>
    match cases.find? (fun c => c.id == lid) with
    | some c => acc + c.requested_amount
    | none => acc) start

/-- create_jv of app/routers/documents.py, as the source stands.  The
module imports JVLineItem from app.models, which does not define it, and
references DocumentType.JV (documents.py line 174), which is not a member
of the DocumentType enum of app/models.py — migration 47e0884dfe99 renamed
only the database enum.  Granting the module import, the handler body
fetches the main case (404 when missing, line 160), computes the total
(lines 162-170, a read with no observable effect), and then raises
AttributeError at the DocumentType.JV lookup on every remaining path —
before the JV document, the line items or any status write exist.  No
invocation ever commits anything. -/
def create_jv (db : DBState) (main_case_id : Nat) (linked_case_ids : List Nat) :
    Except ApiError (DBState × Document) :=
  match db.cases.find? (fun c => c.id == main_case_id) with
  | none => .error (.notFound "Main case not found")
  | some main_case =>
      let _total_amount :=
        reqTotal db.cases linked_case_ids main_case.requested_amount
      .error (.internal "AttributeError: JV")

/-- The workflow operations: the six single-case endpoints of
app/routers/cases.py plus the create_jv endpoint of
app/routers/documents.py, packaged for statements that quantify over every
operation. -/
inductive Op where
  | submit (caseId : Nat) (actor : Actor)
  | psApprove (caseId : Nat) (actor : Actor) (ym : String) (newDocId : Nat)
  | crIssue (caseId : Nat) (actor : Actor) (ym : String) (newDocId : Nat)
  | payment (caseId : Nat) (reference_no : Option String) (actor : Actor)
  | settlement (caseId : Nat) (actual_amount : Int) (actor : Actor)
  | dbIssue (caseId : Nat) (actor : Actor) (ym : String) (newDocId : Nat)
  | createJv (mainId : Nat) (linked : List Nat)

/-- Run a workflow operation, keeping only the resulting database state. -/
def runOp (db : DBState) : Op → Except ApiError DBState
  | .submit cid a => (submit_case db cid a).map Prod.fst
  | .psApprove cid a ym did => (ps_approve_case db cid a ym did).map Prod.fst
  | .crIssue cid a ym did => (cr_issue_case db cid a ym did).map Prod.fst
  | .payment cid ref a => (record_payment_for_case db cid ref a).map Prod.fst
  | .settlement cid amt a => (submit_settlement_for_case db cid amt a).map Prod.fst
  | .dbIssue cid a ym did => (db_issue_case db cid a ym did).map Prod.fst
  | .createJv mainId linked => (create_jv db mainId linked).map Prod.fst

/-- Position of a status along the implemented workflow chain; the terminal
side branches sit above everything they can never precede. -/
def statusRank : CaseStatus → Nat
  | .DRAFT => 0
  | .SUBMITTED => 1
  | .PS_APPROVED => 2
  | .CR_ISSUED => 3
  | .PAID => 4
  | .SETTLEMENT_SUBMITTED => 5
  | .DB_ISSUED => 6
  | .CLOSED => 7
  | .PS_REJECTED => 8
  | .CANCELLED => 9

/-- A status from which the implemented chain offers no further move. -/
def isTerminal (s : CaseStatus) : Bool :=
  s == CaseStatus.CLOSED || s == CaseStatus.CANCELLED

/-!  Helper lemmas about updateCaseStatus.  -/

theorem updateCaseStatus_mem (cs : List Case) (cid : Nat) (st : CaseStatus)
    (c0 : Case) (hf : cs.find? (fun x => x.id == cid) = some c0) :
    ∀ c' ∈ updateCaseStatus cs cid st, c' ∈ cs ∨ c' = { c0 with status := st } := by
  induction cs with
  | nil => intro c' h; simp [updateCaseStatus] at h
  | cons a l ih =>
      intro c' hc'
      rcases ha : (a.id == cid) with _ | _
      · rw [List.find?_cons_of_neg _ (by simp [ha])] at hf
        simp only [updateCaseStatus, ha, Bool.false_eq_true, if_false,
          List.mem_cons] at hc'
        rcases hc' with h | h
        · left; simp [h]
        · rcases ih hf c' h with h2 | h2
          · left; exact List.mem_cons_of_mem _ h2
          · right; exact h2
      · rw [List.find?_cons_of_pos (p := fun x : Case => x.id == cid) _ ha] at hf
        have ha0 : a = c0 := by exact Option.some.inj hf
        simp only [updateCaseStatus, ha, if_true, List.mem_cons] at hc'
        rcases hc' with h | h
        · right; rw [h, ha0]
        · left; exact List.mem_cons_of_mem _ h

theorem find?_updateCaseStatus (cs : List Case) (u cid : Nat) (st : CaseStatus) :
    (updateCaseStatus cs u st).find? (fun c => c.id == cid) =
      if u = cid then
        (cs.find? (fun c => c.id == cid)).map (fun c => { c with status := st })
      else cs.find? (fun c => c.id == cid) := by
  induction cs with
  | nil => simp [updateCaseStatus]
  | cons a l ih =>
      rcases hu : (a.id == u) with _ | _
      · -- head is not the updated row
        simp only [updateCaseStatus, hu, Bool.false_eq_true, if_false]
        rcases hc : (a.id == cid) with _ | _
        · rw [List.find?_cons_of_neg _ (by simp [hc]),
            List.find?_cons_of_neg _ (by simp [hc]), ih]
        · have hne : ¬ (u = cid) := by
            intro he
            rw [he] at hu
            rw [hc] at hu
            exact Bool.noConfusion hu
          rw [List.find?_cons_of_pos (p := fun c : Case => c.id == cid) _ hc,
            List.find?_cons_of_pos (p := fun c : Case => c.id == cid) _ hc, if_neg hne]
      · -- head is the updated row
        have hu' : a.id = u := by simpa using hu
        simp only [updateCaseStatus, hu, if_true]
        by_cases he : u = cid
        · have hcid : (a.id == cid) = true := by simp [hu', he]
          rw [List.find?_cons_of_pos (p := fun c : Case => c.id == cid) _
              (show (({ a with status := st } : Case).id == cid) = true from hcid),
            List.find?_cons_of_pos (p := fun c : Case => c.id == cid) _ hcid, if_pos he]
          rfl
        · have hcid : (a.id == cid) = false := by
            simp only [beq_eq_false_iff_ne, ne_eq, hu']
            exact he
          rw [List.find?_cons_of_neg _ (by simp [hcid]),
            List.find?_cons_of_neg _ (by simp [hcid]), if_neg he]

/-!  Success inversions: when an operation returns ok, the target case was
found with the operation's expected pre-status and the resulting state
updates only that case's status.  -/

theorem submit_case_ok_inv {db : DBState} {cid : Nat} {a : Actor}
    {r : DBState × Case} (h : submit_case db cid a = .ok r) :
    ∃ c0, db.cases.find? (fun c => c.id == cid) = some c0 ∧ c0.status = .DRAFT ∧
      r.1.cases = updateCaseStatus db.cases cid .SUBMITTED := by
  unfold submit_case at h
  split at h
  · exact Except.noConfusion h
  · split at h
    · exact Except.noConfusion h
    · rename_i dbCase hfind
      split at h
      · exact Except.noConfusion h
      · split at h
        · exact Except.noConfusion h
        · rename_i hst
          simp only [Except.ok.injEq] at h
          subst h
          exact ⟨dbCase, hfind, not_not.mp hst, rfl⟩

theorem ps_approve_case_ok_inv {db : DBState} {cid : Nat} {a : Actor}
    {ym : String} {did : Nat} {r : DBState × Document}
    (h : ps_approve_case db cid a ym did = .ok r) :
    ∃ c0, db.cases.find? (fun c => c.id == cid) = some c0 ∧
      c0.status = .SUBMITTED ∧
      db.documents.find?
        (fun d => d.case_id == cid && d.doc_type == DocumentType.PS) = none ∧
      r.1.cases = updateCaseStatus db.cases cid .PS_APPROVED ∧
      r.1.documents = db.documents ++ [r.2] ∧
      r.2.doc_type = .PS ∧ r.2.case_id = cid ∧
      r.2.amount = c0.requested_amount := by
  unfold ps_approve_case at h
  split at h
  · exact Except.noConfusion h
  · split at h
    · exact Except.noConfusion h
    · rename_i dbCase hfind
      split at h
      · exact Except.noConfusion h
      · rename_i hst
        split at h
        · exact Except.noConfusion h
        · rename_i hdoc
          simp only [Except.ok.injEq] at h
          subst h
          exact ⟨dbCase, hfind, not_not.mp hst,
            Option.not_isSome_iff_eq_none.mp hdoc, rfl, rfl, rfl, rfl, rfl⟩

theorem cr_issue_case_ok_inv {db : DBState} {cid : Nat} {a : Actor}
    {ym : String} {did : Nat} {r : DBState × Document}
    (h : cr_issue_case db cid a ym did = .ok r) :
    ∃ c0, db.cases.find? (fun c => c.id == cid) = some c0 ∧
      c0.status = .PS_APPROVED ∧
      r.1.cases = updateCaseStatus db.cases cid .CR_ISSUED := by
  unfold cr_issue_case at h
  split at h
  · exact Except.noConfusion h
  · split at h
    · exact Except.noConfusion h
    · rename_i dbCase hfind
      split at h
      · exact Except.noConfusion h
      · rename_i hst
        split at h
        · exact Except.noConfusion h
        · simp only [Except.ok.injEq] at h
          subst h
          exact ⟨dbCase, hfind, not_not.mp hst, rfl⟩

theorem record_payment_ok_inv {db : DBState} {cid : Nat}
    {ref : Option String} {a : Actor} {r : DBState × Payment}
    (h : record_payment_for_case db cid ref a = .ok r) :
    ∃ c0 crDoc, db.cases.find? (fun c => c.id == cid) = some c0 ∧
      c0.status = .CR_ISSUED ∧
      db.documents.find?
        (fun d => d.case_id == cid && d.doc_type == DocumentType.CR) = some crDoc ∧
      db.payments.find?
        (fun q => q.case_id == cid && q.ptype == PaymentType.DISBURSE) = none ∧
      r.1.cases = updateCaseStatus db.cases cid .PAID ∧
      r.1.payments = db.payments ++ [r.2] ∧
      r.2.amount = crDoc.amount ∧ r.2.ptype = .DISBURSE ∧ r.2.case_id = cid := by
  unfold record_payment_for_case at h
  split at h
  · exact Except.noConfusion h
  · split at h
    · exact Except.noConfusion h
    · rename_i dbCase hfind
      split at h
      · exact Except.noConfusion h
      · rename_i hst
        split at h
        · exact Except.noConfusion h
        · rename_i crDoc hcr
          split at h
          · exact Except.noConfusion h
          · rename_i hpay
            simp only [Except.ok.injEq] at h
            subst h
            exact ⟨dbCase, crDoc, hfind, not_not.mp hst, hcr,
              Option.not_isSome_iff_eq_none.mp hpay, rfl, rfl, rfl, rfl, rfl⟩

theorem submit_settlement_ok_inv {db : DBState} {cid : Nat} {amt : Int}
    {a : Actor} {r : DBState × Case}
    (h : submit_settlement_for_case db cid amt a = .ok r) :
    ∃ c0, db.cases.find? (fun c => c.id == cid) = some c0 ∧
      c0.status = .PAID ∧
      r.1.cases = updateCaseStatus db.cases cid .SETTLEMENT_SUBMITTED := by
  unfold submit_settlement_for_case at h
  split at h
  · exact Except.noConfusion h
  · split at h
    · exact Except.noConfusion h
    · rename_i dbCase hfind
      split at h
      · exact Except.noConfusion h
      · rename_i hst
        split at h
        · exact Except.noConfusion h
        · simp only [Except.ok.injEq] at h
          subst h
          exact ⟨dbCase, hfind, not_not.mp hst, rfl⟩

theorem db_issue_case_ok_inv {db : DBState} {cid : Nat} {a : Actor}
    {ym : String} {did : Nat} {r : DBState × Document}
    (h : db_issue_case db cid a ym did = .ok r) :
    ∃ c0 entry n crDoc, db.cases.find? (fun c => c.id == cid) = some c0 ∧
      c0.status = .SETTLEMENT_SUBMITTED ∧
      settlementLogs db.audit_logs cid = [entry] ∧
      entry.details.lookup "actual_amount" = some (.num n) ∧
      db.documents.find?
        (fun d => d.case_id == cid && d.doc_type == DocumentType.CR) = some crDoc ∧
      r.2.amount = n ∧ r.2.doc_type = .DB ∧
      r.1.cases = updateCaseStatus db.cases cid .CLOSED := by
  unfold db_issue_case at h
  split at h
  · exact Except.noConfusion h
  · split at h
    · exact Except.noConfusion h
    · rename_i dbCase hfind
      split at h
      · exact Except.noConfusion h
      · rename_i hst
        split at h
        · exact Except.noConfusion h
        · split at h
          · exact Except.noConfusion h
          · exact Except.noConfusion h
          · rename_i entry hlogs
            split at h
            · exact Except.noConfusion h
            · exact Except.noConfusion h
            · rename_i n hlook
              split at h
              · exact Except.noConfusion h
              · rename_i crDoc hcr
                simp only [Except.ok.injEq] at h
                subst h
                exact ⟨dbCase, entry, n, crDoc, hfind, not_not.mp hst, hlogs,
                  hlook, hcr, rfl, rfl, rfl⟩

theorem create_jv_never_ok (db : DBState) (mainId : Nat) (linked : List Nat)
    (r : DBState × Document) : create_jv db mainId linked ≠ .ok r := by
  intro h
  unfold create_jv at h
  split at h
  · exact Except.noConfusion h
  · exact Except.noConfusion h

/-!  Projections used to state concrete evaluations of the endpoints.  -/

/-- True when the endpoint result is a success (HTTP 2xx): the transaction
committed. -/
def resultOk {α : Type} : Except ApiError α → Bool
  | .ok _ => true
  | .error _ => false

/-- True when the endpoint failed with NotFound (HTTP 404). -/
def isNotFoundError {α : Type} : Except ApiError α → Bool
  | .error (.notFound _) => true
  | .error _ => false
  | .ok _ => false

/-- The stored status of a case in a database state. -/
def caseStatusIn (db : DBState) (cid : Nat) : Option CaseStatus :=
  (db.cases.find? (fun c => c.id == cid)).map (fun c => c.status)

/-- How many PS documents a case owns. -/
def psDocCount (db : DBState) (cid : Nat) : Nat :=
  (db.documents.filter
    (fun d => d.case_id == cid && d.doc_type == DocumentType.PS)).length

/-- A successful status update moves the status of the found case from its
checked pre-status to the written post-status; every other case row is
untouched.  Stated in the shape needed by the monotonicity claim. -/
theorem forward_of_update {db : DBState} {cs2 : List Case} {cid : Nat}
    {c0 : Case} {pre post : CaseStatus}
    (hfind : db.cases.find? (fun c => c.id == cid) = some c0)
    (hst : c0.status = pre)
    (hcases : cs2 = updateCaseStatus db.cases cid post)
    (hrank : statusRank pre < statusRank post)
    (hterm : isTerminal pre = false) :
    ∀ c2 ∈ cs2, ∃ c ∈ db.cases, c.id = c2.id ∧
      (c2.status = c.status ∨ statusRank c.status < statusRank c2.status) ∧
      (isTerminal c.status = true → c2.status = c.status) := by
  intro c2 hc2
  rw [hcases] at hc2
  rcases updateCaseStatus_mem db.cases cid post c0 hfind c2 hc2 with hmem | heq
  · exact ⟨c2, hmem, rfl, Or.inl rfl, fun _ => rfl⟩
  · refine ⟨c0, List.mem_of_find?_eq_some hfind, ?_, ?_, ?_⟩
    · rw [heq]
    · right
      rw [heq, hst]
      exact hrank
    · intro ht
      rw [hst] at ht
      rw [hterm] at ht
      exact Bool.noConfusion ht

/-- Claim C3: for every workflow operation — the six single-case endpoints
of app/routers/cases.py and create_jv — a successful run never moves a
case's status backwards and never changes a CLOSED or CANCELLED case: each
single-case endpoint checks one fixed, non-terminal pre-status and writes
one fixed, strictly later status onto the single affected case, and
create_jv never succeeds at all (it raises before any write), so it
changes nothing.  The spec's close event is db_issue's terminal write; no
cancel endpoint is implemented; the statuses traversed are those of the
implemented PS/CR/DB chain. -/
theorem C3_monotonic (op : Op) (db db2 : DBState) (h : runOp db op = .ok db2) :
    ∀ c2 ∈ db2.cases, ∃ c ∈ db.cases, c.id = c2.id ∧
      (c2.status = c.status ∨ statusRank c.status < statusRank c2.status) ∧
      (isTerminal c.status = true → c2.status = c.status) := by
  cases op with
  | submit cid a =>
      simp only [runOp] at h
      rcases hs : submit_case db cid a with e | r
      · rw [hs] at h; exact Except.noConfusion h
      · rw [hs] at h
        have hdb2 : r.1 = db2 := by simpa [Except.map] using h
        obtain ⟨c0, hfind, hst, hcases⟩ := submit_case_ok_inv hs
        rw [← hdb2]
        exact forward_of_update hfind hst hcases (by decide) (by decide)
  | psApprove cid a ym did =>
      simp only [runOp] at h
      rcases hs : ps_approve_case db cid a ym did with e | r
      · rw [hs] at h; exact Except.noConfusion h
      · rw [hs] at h
        have hdb2 : r.1 = db2 := by simpa [Except.map] using h
        obtain ⟨c0, hfind, hst, -, hcases, -⟩ := ps_approve_case_ok_inv hs
        rw [← hdb2]
        exact forward_of_update hfind hst hcases (by decide) (by decide)
  | crIssue cid a ym did =>
      simp only [runOp] at h
      rcases hs : cr_issue_case db cid a ym did with e | r
      · rw [hs] at h; exact Except.noConfusion h
      · rw [hs] at h
        have hdb2 : r.1 = db2 := by simpa [Except.map] using h
        obtain ⟨c0, hfind, hst, hcases⟩ := cr_issue_case_ok_inv hs
        rw [← hdb2]
        exact forward_of_update hfind hst hcases (by decide) (by decide)
  | payment cid ref a =>
      simp only [runOp] at h
      rcases hs : record_payment_for_case db cid ref a with e | r
      · rw [hs] at h; exact Except.noConfusion h
      · rw [hs] at h
        have hdb2 : r.1 = db2 := by simpa [Except.map] using h
        obtain ⟨c0, crDoc, hfind, hst, -, -, hcases, -⟩ := record_payment_ok_inv hs
        rw [← hdb2]
        exact forward_of_update hfind hst hcases (by decide) (by decide)
  | settlement cid amt a =>
      simp only [runOp] at h
      rcases hs : submit_settlement_for_case db cid amt a with e | r
      · rw [hs] at h; exact Except.noConfusion h
      · rw [hs] at h
        have hdb2 : r.1 = db2 := by simpa [Except.map] using h
        obtain ⟨c0, hfind, hst, hcases⟩ := submit_settlement_ok_inv hs
        rw [← hdb2]
        exact forward_of_update hfind hst hcases (by decide) (by decide)
  | dbIssue cid a ym did =>
      simp only [runOp] at h
      rcases hs : db_issue_case db cid a ym did with e | r
      · rw [hs] at h; exact Except.noConfusion h
      · rw [hs] at h
        have hdb2 : r.1 = db2 := by simpa [Except.map] using h
        obtain ⟨c0, entry, n, crDoc, hfind, hst, -, -, -, -, -, hcases⟩ :=
          db_issue_case_ok_inv hs
        rw [← hdb2]
        exact forward_of_update hfind hst hcases (by decide) (by decide)
  | createJv mainId linked =>
      simp only [runOp] at h
      rcases hs : create_jv db mainId linked with e | r
      · rw [hs] at h; exact Except.noConfusion h
      · exact absurd hs (create_jv_never_ok db mainId linked r)

def exActorReq : Actor := { username := "bob", roles := [.REQUESTER] }

def exCase31 : Case :=
  { id := 31, case_no := "CAS-31", category_id := 1, account_code := "5000",
    requester_id := "bob", department_id := none, cost_center_id := none,
    funding_type := .OPERATING, requested_amount := 100, purpose := "p",
    status := .DRAFT, deposit_account_id := none,
    is_receipt_uploaded := false }

def exDb31 : DBState :=
  { categories := [], cases := [exCase31], documents := [], jv_line_items := [],
    payments := [], counters := [], audit_logs := [] }

def exDb31After : DBState :=
  (runOp exDb31 (Op.submit 31 exActorReq)).toOption.getD exDb31

def exCase31After : Case := { exCase31 with status := .SUBMITTED }

/-- Witness for claim C3, at the concrete submit operation. -/
theorem C3_monotonic_witness :
    exCase31After.status = exCase31.status ∨
      statusRank exCase31.status < statusRank exCase31After.status := by
  have h := C3_monotonic (Op.submit 31 exActorReq) exDb31 exDb31After rfl
  obtain ⟨c, hc, -, hmove, -⟩ := h exCase31After (by decide)
  have hcc : c = exCase31 := by
    have : c ∈ [exCase31] := hc
    exact List.mem_singleton.mp this
  rw [← hcc]
  exact hmove

/-- Claim C1 (code divergence): the approve operation implemented in
app/routers/cases.py (ps_approve_case) never reads the case's category.
Whenever it succeeds — including when the category type is REVENUE or
ASSET — the voucher it creates has doc_type PS with amount =
requested_amount, and the case moves to PS_APPROVED; it never produces an
RV-style receive voucher and never short-circuits to CLOSED. -/
theorem C1_approve_ignores_category {db : DBState} {cid : Nat} {a : Actor}
    {ym : String} {did : Nat} {r : DBState × Document} {c0 : Case}
    {cat : Category}
    (h : ps_approve_case db cid a ym did = .ok r)
    (hfind : db.cases.find? (fun c => c.id == cid) = some c0)
    (hcat : db.categories.find? (fun k => k.id == c0.category_id) = some cat)
    (_hrev : cat.ctype = .REVENUE ∨ cat.ctype = .ASSET) :
    r.2.doc_type = .PS ∧ r.2.amount = c0.requested_amount ∧
    caseStatusIn r.1 cid = some .PS_APPROVED := by
  obtain ⟨c1, hf1, hst1, -, hcases, -, hdt, -, hamt⟩ := ps_approve_case_ok_inv h
  rw [hfind] at hf1
  obtain rfl : c1 = c0 := (Option.some.inj hf1).symm
  refine ⟨hdt, hamt, ?_⟩
  rw [caseStatusIn, hcases, find?_updateCaseStatus, if_pos rfl, hfind]
  rfl

def dummyDoc : Document :=
  { id := 0, case_id := 0, doc_type := .PS, doc_no := "", amount := 0,
    pdf_uri := "", created_by := "" }

def exCatRev : Category :=
  { id := 1, name_th := "revenue-cat", ctype := .REVENUE,
    account_code := "4000", is_active := true }

def exActorFin : Actor := { username := "fin", roles := [.FINANCE] }

def exCase1 : Case :=
  { id := 1, case_no := "CAS-1", category_id := 1, account_code := "4000",
    requester_id := "alice", department_id := none, cost_center_id := none,
    funding_type := .OPERATING, requested_amount := 800, purpose := "revenue",
    status := .SUBMITTED, deposit_account_id := none,
    is_receipt_uploaded := false }

def exDb1 : DBState :=
  { categories := [exCatRev], cases := [exCase1], documents := [],
    jv_line_items := [], payments := [], counters := [], audit_logs := [] }

def exR1 : DBState × Document :=
  (ps_approve_case exDb1 1 exActorFin "2501" 10).toOption.getD (exDb1, dummyDoc)

/-- Witness for C1 at a concrete SUBMITTED case with a REVENUE category:
the code yields a PS voucher and status PS_APPROVED where the claim (and
spec) demand an RV voucher and status CLOSED. -/
theorem C1_approve_ignores_category_witness :
    exR1.2.doc_type = .PS ∧ exR1.2.amount = 800 ∧
    caseStatusIn exR1.1 1 = some .PS_APPROVED := by
  have h : ps_approve_case exDb1 1 exActorFin "2501" 10 = .ok exR1 := rfl
  exact @C1_approve_ignores_category exDb1 1 exActorFin "2501" 10 exR1 exCase1
    exCatRev h rfl rfl (Or.inl rfl)

/-- Claim C4 example state: a single member case in status DRAFT, outside
the claimed pre-JV set of APPROVED or PAID. -/
def exCase4 : Case :=
  { id := 4, case_no := "CAS-4", category_id := 1, account_code := "5000",
    requester_id := "bob", department_id := none, cost_center_id := none,
    funding_type := .OPERATING, requested_amount := 100, purpose := "p",
    status := .DRAFT, deposit_account_id := none,
    is_receipt_uploaded := false }

def exDb4 : DBState :=
  { categories := [], cases := [exCase4], documents := [], jv_line_items := [],
    payments := [], counters := [], audit_logs := [] }

/-- Claim C4 counterexample: with a member case in status DRAFT the
operation does not fail with a Validation (HTTP 400) error as the claim
states — it fails with the AttributeError internal error that every
invocation with a resolving main case hits, so the claimed status
validation never runs. -/
theorem C4_counterexample :
    caseStatusIn exDb4 4 = some .DRAFT ∧
    create_jv exDb4 4 [] = .error (.internal "AttributeError: JV") :=
  ⟨rfl, rfl⟩

/-- Claim C4 amended: create_jv performs no status validation on member
cases and never raises a Validation error: every invocation fails —
NotFound when the main case id does not resolve, otherwise the
AttributeError from the DocumentType.JV reference — creating no JV
document and changing no case, since nothing is ever committed. -/
theorem C4_no_validation (db : DBState) (mainId : Nat) (linked : List Nat) :
    resultOk (create_jv db mainId linked) = false ∧
    (∀ mc, db.cases.find? (fun c => c.id == mainId) = some mc →
      create_jv db mainId linked = .error (.internal "AttributeError: JV")) := by
  constructor
  · rcases hfm : db.cases.find? (fun c => c.id == mainId) with _ | mc
    · simp [create_jv, hfm, resultOk]
    · simp [create_jv, hfm, resultOk]
  · intro mc hfm
    simp [create_jv, hfm]

/-- Witness for the amended claim C4 at the concrete DRAFT member case. -/
theorem C4_no_validation_witness :
    resultOk (create_jv exDb4 4 []) = false ∧
    create_jv exDb4 4 [] = .error (.internal "AttributeError: JV") := by
  have h := C4_no_validation exDb4 4 []
  exact ⟨h.1, h.2 exCase4 rfl⟩

/-- Claim C5 examples: one existing case with id 5; the linked id 99 does
not resolve. -/
def exCase5 : Case :=
  { id := 5, case_no := "CAS-5", category_id := 1, account_code := "5000",
    requester_id := "bob", department_id := none, cost_center_id := none,
    funding_type := .OPERATING, requested_amount := 100, purpose := "p",
    status := .PAID, deposit_account_id := none,
    is_receipt_uploaded := false }

def exDb5 : DBState :=
  { categories := [], cases := [exCase5], documents := [], jv_line_items := [],
    payments := [], counters := [], audit_logs := [] }

/-- Claim C5 counterexample: with the main case present and a linked id
missing, create_jv does not fail NotFound — it fails with the internal
AttributeError that every invocation with a resolving main case hits. -/
theorem C5_counterexample :
    exDb5.cases.find? (fun c => c.id == 99) = none ∧
    resultOk (create_jv exDb5 5 [99]) = false ∧
    isNotFoundError (create_jv exDb5 5 [99]) = false :=
  ⟨rfl, rfl, rfl⟩

/-- Claim C5 amended: create_jv fails NotFound exactly when main_case_id
does not resolve — the only id the handler checks before the crash —
persisting nothing; with a resolving main case it fails with the
AttributeError internal error at the DocumentType.JV lookup, whether or
not the linked ids resolve, likewise persisting nothing. -/
theorem C5_notfound_main_only (db : DBState) (mainId : Nat) (linked : List Nat) :
    (db.cases.find? (fun c => c.id == mainId) = none →
      create_jv db mainId linked = .error (.notFound "Main case not found")) ∧
    ((db.cases.find? (fun c => c.id == mainId)).isSome = true →
      create_jv db mainId linked = .error (.internal "AttributeError: JV")) := by
  constructor
  · intro hm
    simp only [create_jv, hm]
  · intro hm
    rcases hfm : db.cases.find? (fun c => c.id == mainId) with _ | mc
    · rw [hfm] at hm; exact Bool.noConfusion hm
    · simp only [create_jv, hfm]

/-- Witness for the amended claim C5: both failure modes at concrete
inputs. -/
theorem C5_notfound_main_only_witness :
    create_jv exDb5 99 [] = .error (.notFound "Main case not found") ∧
    create_jv exDb5 5 [99] = .error (.internal "AttributeError: JV") :=
  ⟨(C5_notfound_main_only exDb5 99 []).1 rfl,
   (C5_notfound_main_only exDb5 5 [99]).2 rfl⟩

def exCase61 : Case :=
  { id := 61, case_no := "CAS-61", category_id := 1, account_code := "5000",
    requester_id := "bob", department_id := none, cost_center_id := none,
    funding_type := .OPERATING, requested_amount := 100, purpose := "p",
    status := .PS_APPROVED, deposit_account_id := none,
    is_receipt_uploaded := false }

def exCase62 : Case :=
  { id := 62, case_no := "CAS-62", category_id := 1, account_code := "5000",
    requester_id := "bob", department_id := none, cost_center_id := none,
    funding_type := .OPERATING, requested_amount := 250, purpose := "p",
    status := .PAID, deposit_account_id := none,
    is_receipt_uploaded := false }

def exDb6 : DBState :=
  { categories := [], cases := [exCase61, exCase62], documents := [],
    jv_line_items := [], payments := [], counters := [], audit_logs := [] }

/-- Claim C6 (code divergence): no JV document is ever successfully
created, so the claimed sum invariant never has an instance to hold of.
create_jv fails on every invocation — app/models.py defines neither a JV
member of DocumentType nor the JVLineItem ORM class, although migration
47e0884dfe99 created the jv_line_items table and the JV value in the
database enum — so the JV document and line items of the spec's
aggregation scenario (two cases with amounts 100 and 250) are never
written; the universal conjunct shows no input produces a JV at all. -/
theorem C6_jv_never_created :
    (∀ (db : DBState) (mainId : Nat) (linked : List Nat),
      resultOk (create_jv db mainId linked) = false) ∧
    create_jv exDb6 61 [62] = .error (.internal "AttributeError: JV") := by
  constructor
  · intro db mainId linked
    rcases hfm : db.cases.find? (fun c => c.id == mainId) with _ | mc
    · simp [create_jv, hfm, resultOk]
    · simp [create_jv, hfm, resultOk]
  · rfl

theorem create_case_ok_inv {db : DBState} {payload : CaseCreate} {u : String}
    {newId : Nat} {caseNo : String} {r : DBState × Case}
    (h : create_case db payload u newId caseNo = .ok r) :
    r.1.cases = db.cases ++ [r.2] ∧ r.2.status = .DRAFT ∧
    r.2.deposit_account_id = none ∧
    r.2.requested_amount = payload.requested_amount := by
  unfold create_case at h
  split at h
  · exact Except.noConfusion h
  · split at h
    · exact Except.noConfusion h
    · simp only [Except.ok.injEq] at h
      subst h
      exact ⟨rfl, rfl, rfl, rfl⟩

/-- Claim C7 amended: create_case fails NotFound when the category does not
exist, and with the invalid-state error (HTTP 400, category inactive) when
it is inactive; but it performs no deposit-account validation at all: with
an active category — of any type, including REVENUE and ASSET — the case is
persisted even when payload.deposit_account_id is absent, and the field is
never stored (the handler ignores it, leaving the column NULL). -/
theorem C7_create_case (db : DBState) (payload : CaseCreate) (u : String)
    (newId : Nat) (caseNo : String) :
    (db.categories.find? (fun c => c.id == payload.category_id) = none →
      create_case db payload u newId caseNo =
        .error (.notFound "Category not found.")) ∧
    (∀ cat, db.categories.find? (fun c => c.id == payload.category_id) = some cat →
      cat.is_active = false →
      create_case db payload u newId caseNo =
        .error (.badRequest "Category is inactive.")) ∧
    (∀ cat, db.categories.find? (fun c => c.id == payload.category_id) = some cat →
      cat.is_active = true →
      resultOk (create_case db payload u newId caseNo) = true ∧
      ∀ r, create_case db payload u newId caseNo = .ok r →
        r.1.cases = db.cases ++ [r.2] ∧ r.2.status = .DRAFT ∧
        r.2.deposit_account_id = none ∧
        r.2.requested_amount = payload.requested_amount) := by
  refine ⟨?_, ?_, ?_⟩
  · intro hm
    simp only [create_case, hm]
  · intro cat hf hina
    simp [create_case, hf, hina]
  · intro cat hf hact
    refine ⟨by simp [create_case, hf, hact, resultOk], ?_⟩
    intro r hr
    exact create_case_ok_inv hr

def exCat7 : Category :=
  { id := 7, name_th := "rev7", ctype := .REVENUE, account_code := "4100",
    is_active := true }

def exCat8 : Category :=
  { id := 8, name_th := "old8", ctype := .EXPENSE, account_code := "9900",
    is_active := false }

def exDb7 : DBState :=
  { categories := [exCat7, exCat8], cases := [], documents := [],
    jv_line_items := [], payments := [], counters := [], audit_logs := [] }

def exPayload7 : CaseCreate :=
  { category_id := 7, requested_amount := 500, purpose := "rev",
    department_id := none, cost_center_id := none,
    funding_type := .OPERATING, deposit_account_id := none }

def exPayloadMissingCat : CaseCreate := { exPayload7 with category_id := 99 }

def exPayloadInactiveCat : CaseCreate := { exPayload7 with category_id := 8 }

/-- Claim C7 counterexample: a REVENUE case created without a deposit
account is accepted and persisted — no Validation error is raised. -/
theorem C7_counterexample :
    exCat7.ctype = .REVENUE ∧ exPayload7.deposit_account_id = none ∧
    resultOk (create_case exDb7 exPayload7 "alice" 70 "CAS-70") = true :=
  ⟨rfl, rfl, rfl⟩

/-- Witness for the amended claim C7: all three branches at concrete
inputs. -/
theorem C7_create_case_witness :
    create_case exDb7 exPayloadMissingCat "alice" 71 "CAS-71" =
      .error (.notFound "Category not found.") ∧
    create_case exDb7 exPayloadInactiveCat "alice" 72 "CAS-72" =
      .error (.badRequest "Category is inactive.") ∧
    resultOk (create_case exDb7 exPayload7 "alice" 70 "CAS-70") = true := by
  refine ⟨?_, ?_, ?_⟩
  · exact (C7_create_case exDb7 exPayloadMissingCat "alice" 71 "CAS-71").1 rfl
  · exact (C7_create_case exDb7 exPayloadInactiveCat "alice" 72 "CAS-72").2.1
      exCat8 rfl rfl
  · exact ((C7_create_case exDb7 exPayload7 "alice" 70 "CAS-70").2.2
      exCat7 rfl rfl).1

/-- Claim C8: single-case voucher uniqueness at the approve step.  With the
role, existence and SUBMITTED pre-conditions satisfied: when a PS document
for the case already exists the endpoint fails with Conflict and creates
nothing (errors commit nothing); when it succeeds, the case had no PS
document before and has exactly one afterwards.  (The database schema
additionally enforces UNIQUE(case_id, doc_type) on documents.) -/
theorem C8_voucher_uniqueness {db : DBState} {cid : Nat} {a : Actor}
    {ym : String} {did : Nat} {c0 : Case}
    (hrole : hasAnyRole a [.FINANCE, .ADMIN] = true)
    (hfind : db.cases.find? (fun c => c.id == cid) = some c0)
    (hst : c0.status = .SUBMITTED) :
    ((db.documents.find?
        (fun d => d.case_id == cid && d.doc_type == DocumentType.PS)).isSome = true →
      ps_approve_case db cid a ym did =
        .error (.conflict "PS document already exists for case.")) ∧
    (∀ r, ps_approve_case db cid a ym did = .ok r →
      psDocCount db cid = 0 ∧ psDocCount r.1 cid = 1) := by
  constructor
  · intro hdoc
    simp [ps_approve_case, hrole, hfind, hst, hdoc]
  · intro r hok
    obtain ⟨c1, hf1, -, hdocnone, hcases, hdocs, hdt, hcid, -⟩ :=
      ps_approve_case_ok_inv hok
    have hnil : db.documents.filter
        (fun d => d.case_id == cid && d.doc_type == DocumentType.PS) = [] := by
      apply List.filter_eq_nil_iff.mpr
      intro d hd
      have := List.find?_eq_none.mp hdocnone d hd
      simpa using this
    have hzero : psDocCount db cid = 0 := by
      unfold psDocCount
      rw [hnil]
      rfl
    refine ⟨hzero, ?_⟩
    unfold psDocCount
    rw [hdocs, List.filter_append, hnil, List.nil_append]
    simp [hdt, hcid]

def exCase8 : Case :=
  { id := 8, case_no := "CAS-8", category_id := 1, account_code := "5000",
    requester_id := "bob", department_id := none, cost_center_id := none,
    funding_type := .OPERATING, requested_amount := 100, purpose := "p",
    status := .SUBMITTED, deposit_account_id := none,
    is_receipt_uploaded := false }

def exDoc8 : Document :=
  { id := 80, case_id := 8, doc_type := .PS, doc_no := "PS-2501-0001",
    amount := 100, pdf_uri := "placeholder_ps_uri", created_by := "fin" }

def exDb8 : DBState :=
  { categories := [], cases := [exCase8], documents := [exDoc8],
    jv_line_items := [], payments := [], counters := [], audit_logs := [] }

def exCase9 : Case := { exCase8 with id := 9, case_no := "CAS-9" }

def exDb9 : DBState :=
  { categories := [], cases := [exCase9], documents := [], jv_line_items := [],
    payments := [], counters := [], audit_logs := [] }

def exR9 : DBState × Document :=
  (ps_approve_case exDb9 9 exActorFin "2501" 90).toOption.getD (exDb9, dummyDoc)

/-- Witness for claim C8: the duplicate-PS conflict and the
exactly-one-PS-after-success facts at concrete states. -/
theorem C8_voucher_uniqueness_witness :
    ps_approve_case exDb8 8 exActorFin "2501" 81 =
      .error (.conflict "PS document already exists for case.") ∧
    (psDocCount exDb9 9 = 0 ∧ psDocCount exR9.1 9 = 1) := by
  constructor
  · exact (@C8_voucher_uniqueness exDb8 8 exActorFin "2501" 81 exCase8
      rfl rfl rfl).1 rfl
  · exact (@C8_voucher_uniqueness exDb9 9 exActorFin "2501" 90 exCase9
      rfl rfl rfl).2 exR9 rfl

def exActorAcc : Actor := { username := "acc", roles := [.ACCOUNTING] }

/-- Claim C9: with the role, existence, SETTLEMENT_SUBMITTED and
no-DB-document preconditions satisfied, db_issue_case recovers the
settlement amount from the settlement_submit audit-log row: it fails
NotFound — nothing committed — when no such row exists or the row has no
actual_amount key, and when the row carries actual_amount = n (and the CR
document exists) it succeeds with a DB document whose amount is exactly n
(the recovered amount, not the case's requested_amount) and the case ends
CLOSED.  More than one matching audit row would raise
MultipleResultsFound; within the implemented workflow at most one
settlement_submit row can exist per case. -/
theorem C9_db_issue {db : DBState} {cid : Nat} {a : Actor} {ym : String}
    {did : Nat} {c0 : Case}
    (hrole : hasAnyRole a [.ACCOUNTING, .ADMIN] = true)
    (hfind : db.cases.find? (fun c => c.id == cid) = some c0)
    (hst : c0.status = .SETTLEMENT_SUBMITTED)
    (hnodb : db.documents.find?
      (fun d => d.case_id == cid && d.doc_type == DocumentType.DB) = none) :
    (settlementLogs db.audit_logs cid = [] →
      db_issue_case db cid a ym did =
        .error (.notFound "Settlement actual_amount not found in audit logs.")) ∧
    (∀ entry, settlementLogs db.audit_logs cid = [entry] →
      entry.details.lookup "actual_amount" = none →
      db_issue_case db cid a ym did =
        .error (.notFound "Settlement actual_amount not found in audit logs.")) ∧
    (∀ entry n, settlementLogs db.audit_logs cid = [entry] →
      entry.details.lookup "actual_amount" = some (.num n) →
      (resultOk (db_issue_case db cid a ym did) = true →
        ∀ r, db_issue_case db cid a ym did = .ok r →
          r.2.doc_type = .DB ∧ r.2.amount = n ∧
          caseStatusIn r.1 cid = some .CLOSED) ∧
      (∀ crDoc, db.documents.find?
          (fun d => d.case_id == cid && d.doc_type == DocumentType.CR) = some crDoc →
        resultOk (db_issue_case db cid a ym did) = true)) := by
  refine ⟨?_, ?_, ?_⟩
  · intro hlogs
    simp [db_issue_case, hrole, hfind, hst, hnodb, hlogs]
  · intro entry hlogs hlook
    simp [db_issue_case, hrole, hfind, hst, hnodb, hlogs, hlook]
  · intro entry n hlogs hlook
    constructor
    · intro _hres r hok
      obtain ⟨c1, entry1, n1, crDoc1, hf1, -, hlogs1, hlook1, -, hamt, hdt, hcases⟩ :=
        db_issue_case_ok_inv hok
      rw [hlogs] at hlogs1
      obtain rfl : entry1 = entry := (List.cons.inj hlogs1).1.symm
      rw [hlook] at hlook1
      obtain rfl : n1 = n := by
        have := Option.some.inj hlook1
        exact (JVal.num.inj this).symm
      refine ⟨hdt, hamt, ?_⟩
      rw [caseStatusIn, hcases, find?_updateCaseStatus, if_pos rfl, hfind]
      rfl
    · intro crDoc hcr
      simp [db_issue_case, hrole, hfind, hst, hnodb, hlogs, hlook, hcr, resultOk]

def exCase91 : Case :=
  { id := 91, case_no := "CAS-91", category_id := 1, account_code := "5000",
    requester_id := "bob", department_id := none, cost_center_id := none,
    funding_type := .OPERATING, requested_amount := 100, purpose := "p",
    status := .SETTLEMENT_SUBMITTED, deposit_account_id := none,
    is_receipt_uploaded := false }

def exCrDoc91 : Document :=
  { id := 910, case_id := 91, doc_type := .CR, doc_no := "CR-2501-0001",
    amount := 100, pdf_uri := "placeholder_cr_uri", created_by := "acc" }

def exSettleLog91 : AuditEntry :=
  { entity_type := "case", entity_id := 91, action := "settlement_submit",
    performed_by := "bob",
    details := [("old_status", .str "PAID"),
                ("new_status", .str "SETTLEMENT_SUBMITTED"),
                ("actual_amount", .num 120)] }

def exDb91 : DBState :=
  { categories := [], cases := [exCase91], documents := [exCrDoc91],
    jv_line_items := [], payments := [], counters := [],
    audit_logs := [exSettleLog91] }

def exDb92 : DBState := { exDb91 with audit_logs := [] }

def exR91 : DBState × Document :=
  (db_issue_case exDb91 91 exActorAcc "2501" 911).toOption.getD (exDb91, dummyDoc)

/-- Witness for claim C9: the closing document carries the recovered 120,
not the requested 100, and without the audit row the endpoint is NotFound. -/
theorem C9_db_issue_witness :
    (exR91.2.doc_type = .DB ∧ exR91.2.amount = 120 ∧
      caseStatusIn exR91.1 91 = some .CLOSED) ∧
    exCase91.requested_amount = 100 ∧
    db_issue_case exDb92 91 exActorAcc "2501" 911 =
      .error (.notFound "Settlement actual_amount not found in audit logs.") := by
  refine ⟨?_, rfl, ?_⟩
  · have h := (@C9_db_issue exDb91 91 exActorAcc "2501" 911 exCase91
      rfl rfl rfl rfl).2.2 exSettleLog91 120 rfl rfl
    exact h.1 rfl exR91 rfl
  · exact (@C9_db_issue exDb92 91 exActorAcc "2501" 911 exCase91
      rfl rfl rfl rfl).1 rfl

def dummyPayment : Payment :=
  { case_id := 0, ptype := .DISBURSE, amount := 0, paid_by := "",
    reference_no := none }

def exActorTre : Actor := { username := "tre", roles := [.TREASURY] }

/-- Claim C10: with the role, existence and CR_ISSUED preconditions
satisfied: the payment endpoint fails NotFound when the CR document is
absent; it refuses with Conflict when a DISBURSE payment already exists;
and on success it appends exactly one DISBURSE payment whose amount is the
CR document's amount (the request body carries no amount at all, only an
optional reference number), moves the case to PAID, and any further
invocation — by any properly-authorized actor — fails with the status
Conflict, leaving the single payment in place. -/
theorem C10_payment {db : DBState} {cid : Nat} {ref : Option String}
    {a : Actor} {c0 : Case}
    (hrole : hasAnyRole a [.TREASURY, .ADMIN] = true)
    (hfind : db.cases.find? (fun c => c.id == cid) = some c0)
    (hst : c0.status = .CR_ISSUED) :
    (db.documents.find?
        (fun d => d.case_id == cid && d.doc_type == DocumentType.CR) = none →
      record_payment_for_case db cid ref a =
        .error (.notFound "CR document not found for case.")) ∧
    (∀ crDoc, db.documents.find?
        (fun d => d.case_id == cid && d.doc_type == DocumentType.CR) = some crDoc →
      (db.payments.find?
        (fun q => q.case_id == cid && q.ptype == PaymentType.DISBURSE)).isSome = true →
      record_payment_for_case db cid ref a =
        .error (.conflict "Payment already recorded for case.")) ∧
    (∀ r, record_payment_for_case db cid ref a = .ok r →
      ∃ crDoc, db.documents.find?
          (fun d => d.case_id == cid && d.doc_type == DocumentType.CR) = some crDoc ∧
        r.2.amount = crDoc.amount ∧ r.2.ptype = .DISBURSE ∧
        r.1.payments = db.payments ++ [r.2] ∧
        caseStatusIn r.1 cid = some .PAID ∧
        ∀ (ref2 : Option String) (a2 : Actor),
          hasAnyRole a2 [.TREASURY, .ADMIN] = true →
          record_payment_for_case r.1 cid ref2 a2 =
            .error (.conflict "Case status must be CR_ISSUED to record payment.")) := by
  refine ⟨?_, ?_, ?_⟩
  · intro hcr
    simp [record_payment_for_case, hrole, hfind, hst, hcr]
  · intro crDoc hcr hpay
    simp [record_payment_for_case, hrole, hfind, hst, hcr, hpay]
  · intro r hok
    obtain ⟨c1, crDoc, hf1, -, hcr, -, hcases, hpays, hamt, hdt, hcid⟩ :=
      record_payment_ok_inv hok
    refine ⟨crDoc, hcr, hamt, hdt, hpays, ?_, ?_⟩
    · rw [caseStatusIn, hcases, find?_updateCaseStatus, if_pos rfl]
      rw [hfind] at hf1
      obtain rfl : c1 = c0 := (Option.some.inj hf1).symm
      rw [hfind]
      rfl
    · intro ref2 a2 hrole2
      have hf2 : r.1.cases.find? (fun c => c.id == cid) =
          some { c0 with status := .PAID } := by
        rw [hcases, find?_updateCaseStatus, if_pos rfl]
        rw [hfind] at hf1
        obtain rfl : c1 = c0 := (Option.some.inj hf1).symm
        rw [hfind]
        rfl
      simp [record_payment_for_case, hrole2, hf2]

def exCase10 : Case :=
  { id := 10, case_no := "CAS-10", category_id := 1, account_code := "5000",
    requester_id := "bob", department_id := none, cost_center_id := none,
    funding_type := .OPERATING, requested_amount := 500, purpose := "p",
    status := .CR_ISSUED, deposit_account_id := none,
    is_receipt_uploaded := false }

def exCrDoc10 : Document :=
  { id := 100, case_id := 10, doc_type := .CR, doc_no := "CR-2501-0002",
    amount := 500, pdf_uri := "placeholder_cr_uri", created_by := "acc" }

def exDb10 : DBState :=
  { categories := [], cases := [exCase10], documents := [exCrDoc10],
    jv_line_items := [], payments := [], counters := [], audit_logs := [] }

def exDb10b : DBState := { exDb10 with documents := [] }

def exR10 : Except ApiError (DBState × Payment) :=
  record_payment_for_case exDb10 10 none exActorTre

def exR10v : DBState × Payment := exR10.toOption.getD (exDb10, dummyPayment)

/-- Witness for claim C10 at concrete states: missing CR gives NotFound;
the recorded payment carries the CR amount 500; the second invocation
conflicts. -/
theorem C10_payment_witness :
    record_payment_for_case exDb10b 10 none exActorTre =
      .error (.notFound "CR document not found for case.") ∧
    exR10v.2.amount = 500 ∧ exR10v.2.ptype = .DISBURSE ∧
    record_payment_for_case exR10v.1 10 none exActorTre =
      .error (.conflict "Case status must be CR_ISSUED to record payment.") := by
  have hthm := @C10_payment exDb10 10 none exActorTre exCase10 rfl rfl rfl
  obtain ⟨crDoc, hcr, hamt, hdt, -, -, hsecond⟩ := hthm.2.2 exR10v rfl
  refine ⟨?_, ?_, hdt, ?_⟩
  · exact (@C10_payment exDb10b 10 none exActorTre exCase10 rfl rfl rfl).1 rfl
  · rw [hamt]
    have : crDoc = exCrDoc10 := by
      have h0 : exDb10.documents.find?
          (fun d => d.case_id == 10 && d.doc_type == DocumentType.CR) =
          some exCrDoc10 := rfl
      rw [h0] at hcr
      exact (Option.some.inj hcr).symm
    rw [this]
    rfl
  · exact hsecond none exActorTre rfl

end PRT
